import Mathlib

/-!
Verification of the resilient HTTP request/response execution engine of
cloudcraft-go: the retry policy (internal/xhttp/retry.go), response draining
(internal/xhttp/response.go), endpoint construction
(internal/endpoint/endpoint.go), and the request executor Client.do.

Modelling conventions:
- Go machine integers (int, and time.Duration = int64 nanoseconds) are
  modelled as Int or Nat; where the code can overflow, the model follows it.
- The float64 pipeline in RetryPolicy.Wait is modelled over the rationals
  with its machine effects made explicit: the int64-to-float64 conversion of
  MinRetryDelay rounds to 53 significant bits (roundFloat64Int), and the
  float64-to-time.Duration (int64) conversions truncate toward zero in range
  and yield the amd64 out-of-range sentinel min-int64 otherwise (goTrunc).
  Multiplying by the power-of-two backoff factor is exact in binary floating
  point up to the float64 range; beyond it the source computes +Inf, whose
  int64 conversion is the same sentinel the model produces for any value at
  or above 2^63, so every int64-valued observable agrees. The jitter factor
  is modelled as the exact 1/10 (the float64 literal 0.1 exceeds it by one
  part in about 2^54, and the jitter products round once more at 2^-53
  relative precision; these sub-ulp effects are not modelled).
- Effectful calls made by Client.do (the underlying http.Client.Do, the
  blocking RetryPolicy.Wait, the request context) are modelled as oracle
  inputs: a function giving each attempt's transport outcome, a function
  giving each attempt's Wait outcome, and the context state observed at the
  post-loop check.
-/

namespace Cloudcraft

/-- A byte sequence: the contents of a request or response body. -/
abbrev Bytes := List Nat

/-- Errors produced or propagated by the engine. Constructors mirror the
error values of the source: ErrMaxRetriesExceeded, ErrRequestFailed (both in
the cloudcraft package), ErrCannotDrainResponse and ErrCannotCloseResponse
(package xhttp), the net/http sentinel errReadOnClosedResBody, a context
cancellation error, and opaque lower-level errors (transport or I/O
failures) identified by a code. nilResponsePanic stands for the nil-pointer
dereference Client.do would hit if the transport ever returned a nil
response together with a nil error, which http.Client.Do never does. -/
inductive Err where
  | maxRetriesExceeded (attempt : Nat)
  | requestFailed (status : Nat)
  | cannotDrainResponse (cause : Err)
  | cannotCloseResponse (cause : Err)
  | readOnClosedBody
  | nilResponsePanic
  | ctxCanceled
  | external (code : Nat)
  deriving DecidableEq

deriving instance DecidableEq for Except

/-- Model of *http.Response as consumed by Client.do: the status code, the
headers, the advertised Content-Length, the outcome of reading the body to
EOF (bytes, or a read error), and the outcome of closing the body. A Go
response body stream can be consumed only once; bodyRead is the result of
its first full read. -/
structure HTTPResponse where
  statusCode : Nat
  header : List (String × List String)
  contentLength : Int
  bodyRead : Except Err Bytes
  closeErr : Option Err
  deriving DecidableEq

/-- Embedding of xhttp.DrainResponseBody: reads the remaining body until EOF and closes
it; a read failure is wrapped as ErrCannotDrainResponse, a close failure as
ErrCannotCloseResponse; returns none on success (a nil Go error). -/
def DrainResponseBody (resp : HTTPResponse) : Option Err :=
  match resp.bodyRead with
  | .error e => some (.cannotDrainResponse e)
  | .ok _ =>
    match resp.closeErr with
    | some e => some (.cannotCloseResponse e)
    | none => none

/-- Embedding of xhttp.DefaultIsRetryable: true when an error occurred, false for a nil
response, and otherwise a switch on the status code over 202, 408, 429, 502,
503, 504. -/
def DefaultIsRetryable (resp : Option HTTPResponse) (err : Option Err) : Bool :=
  if err.isSome then true
  else
    match resp with
    | none => false
    | some r =>
      r.statusCode == 202 || r.statusCode == 408 || r.statusCode == 429 ||
        r.statusCode == 502 || r.statusCode == 503 || r.statusCode == 504

/-- Embedding of xhttp.RetryPolicy. Delays are time.Durations, i.e. int64
nanosecond counts. -/
structure RetryPolicy where
  isRetryable : Option HTTPResponse → Option Err → Bool
  maxRetries : Int
  minRetryDelay : Int
  maxRetryDelay : Int

/-- The _backoffFactor constant of retry.go. -/
def backoffFactor : ℚ := 2

/-- The _jitterFactor constant of retry.go, modelled as the exact rational
1/10; the float64 literal 0.1 exceeds 1/10 by one part in about 2^54 and the
jitter products round once more at 2^-53 relative precision — sub-ulp
effects that are not modelled. -/
def jitterFactor : ℚ := 1 / 10

/-- Truncation toward zero of a rational, the in-range behavior of Go's
float64-to-int64 conversion. -/
def goTruncRaw (q : ℚ) : Int := if 0 ≤ q then ⌊q⌋ else ⌈q⌉

/-- Go's float64-to-int64 (time.Duration) conversion: truncation toward
zero when the truncated value fits in int64; conversion of an out-of-range
value (including +Inf, which the backoff product becomes past the float64
range) is implementation-defined in Go and yields the sentinel min-int64
(0x8000000000000000) on amd64, the platform the repository targets. -/
def goTrunc (q : ℚ) : Int :=
  if goTruncRaw q < -(2 ^ 63) ∨ 2 ^ 63 - 1 < goTruncRaw q then -(2 ^ 63) else goTruncRaw q

/-- Value of the Go conversion float64(n) for an int64 n: integers of
magnitude up to 2^53 convert exactly; larger magnitudes round to 53
significant bits, round-to-nearest, ties to even. -/
def roundFloat64Int (n : Int) : ℚ :=
  if n.natAbs < 2 ^ 53 then (n : ℚ)
  else
    (if 0 ≤ n then 1 else -1) *
      (((let s := n.natAbs
         let unit := 2 ^ (s.log2 + 1 - 53)
         let quo := s / unit
         let rem := s % unit
         (if 2 * rem < unit then quo
          else if unit < 2 * rem then quo + 1
          else if quo % 2 = 0 then quo else quo + 1) * unit : Nat)) : ℚ)

/-- Embedding of RetryPolicy.Wait, first step:
waitTime := float64(p.MinRetryDelay) * math.Pow(_backoffFactor, float64(attempt)).
The int64-to-float64 conversion rounds (roundFloat64Int); the product with
the power of two is exact in float64 up to the float64 range, beyond which
the source holds +Inf — indistinguishable from the model's large rational
once converted to int64, as both give goTrunc's sentinel. -/
def waitTimeRaw (p : RetryPolicy) (attempt : Nat) : ℚ :=
  roundFloat64Int p.minRetryDelay * backoffFactor ^ attempt

/-- Embedding of RetryPolicy.Wait, clamping step:
if time.Duration(waitTime) > p.MaxRetryDelay { waitTime = float64(p.MaxRetryDelay) },
an int64 comparison of the converted value against MaxRetryDelay. -/
def waitTime (p : RetryPolicy) (attempt : Nat) : ℚ :=
  if p.maxRetryDelay < goTrunc (waitTimeRaw p attempt) then (p.maxRetryDelay : ℚ)
  else waitTimeRaw p attempt

/-- Embedding of RetryPolicy.Wait, jitter step, with `r` the rand.Float64() sample in
[0, 1): jitter := (rand.Float64()*2 - 1) * _jitterFactor * waitTime. -/
def jitterAmount (p : RetryPolicy) (attempt : Nat) (r : ℚ) : ℚ :=
  (r * 2 - 1) * jitterFactor * waitTime p attempt

/-- Embedding of RetryPolicy.Wait, final duration handed to time.After:
waitTimeWithJitter := time.Duration(waitTime + jitter). -/
def waitTimeWithJitter (p : RetryPolicy) (attempt : Nat) (r : ℚ) : Int :=
  goTrunc (waitTime p attempt + jitterAmount p attempt r)

/-- Claim C3: DefaultIsRetryable returns true exactly when the error is
non-nil or the response's status code is one of 202, 408, 429, 502, 503,
504; in particular it returns false for every other status code and for the
pair (nil response, nil error). -/
theorem default_is_retryable_iff (resp : Option HTTPResponse) (err : Option Err) :
    DefaultIsRetryable resp err = true ↔
      err ≠ none ∨ ∃ r, resp = some r ∧
        (r.statusCode = 202 ∨ r.statusCode = 408 ∨ r.statusCode = 429 ∨
          r.statusCode = 502 ∨ r.statusCode = 503 ∨ r.statusCode = 504) := by
  cases err with
  | some e => simp [DefaultIsRetryable]
  | none =>
    cases resp with
    | none => simp [DefaultIsRetryable]
    | some r =>
      simp only [DefaultIsRetryable, Option.isSome_none, Bool.false_eq_true, if_false,
        Bool.or_eq_true, beq_iff_eq, ne_eq, not_true_eq_false, false_or,
        Option.some.injEq]
      constructor
      · intro h
        exact ⟨r, rfl, by tauto⟩
      · rintro ⟨r', hr', h⟩
        cases hr'
        tauto

/-- Claim C4 (counterexample): the claim fails on the float64 pipeline as
compiled for amd64. With the default delays (MinRetryDelay = 1s,
MaxRetryDelay = 30s) at attempt 34, MinRetryDelay·2^34 ≈ 1.7e19 ns exceeds
2^63 − 1, the float64-to-Duration conversion in the clamp comparison yields
the negative out-of-range sentinel, the clamp therefore never applies, and
the unjittered delay is the unclamped 17179869184000000000 ns instead of
the claimed min(MinRetryDelay·2^attempt, MaxRetryDelay) = 30s. Truncation
of the jittered value to a whole nanosecond count can also leave the actual
delay strictly below −10% of the unjittered delay: with MinRetryDelay =
5 ns, attempt 0 and random sample 0, the actual delay is 4 ns, below 90% of
the unjittered 5 ns. -/
theorem wait_overflow_and_truncation_counterexample :
    waitTime ⟨DefaultIsRetryable, 3, 1000000000, 30000000000⟩ 34 =
      (17179869184000000000 : ℚ) ∧
    waitTime ⟨DefaultIsRetryable, 3, 1000000000, 30000000000⟩ 34 ≠
      ((min ((1000000000 : Int) * 2 ^ 34) 30000000000 : Int) : ℚ) ∧
    waitTimeWithJitter ⟨DefaultIsRetryable, 3, 5, 30000000000⟩ 0 0 = 4 ∧
    ((waitTimeWithJitter ⟨DefaultIsRetryable, 3, 5, 30000000000⟩ 0 0 : Int) : ℚ) <
      waitTime ⟨DefaultIsRetryable, 3, 5, 30000000000⟩ 0 -
        jitterFactor * waitTime ⟨DefaultIsRetryable, 3, 5, 30000000000⟩ 0 := by
  have e1 : roundFloat64Int 1000000000 = ((1000000000 : Int) : ℚ) := by
    unfold roundFloat64Int
    rw [if_pos (by norm_num)]
  have e2 : waitTimeRaw ⟨DefaultIsRetryable, 3, 1000000000, 30000000000⟩ 34 =
      ((17179869184000000000 : Int) : ℚ) := by
    unfold waitTimeRaw backoffFactor
    rw [show (⟨DefaultIsRetryable, 3, 1000000000, 30000000000⟩ :
      RetryPolicy).minRetryDelay = 1000000000 from rfl]
    rw [e1]
    push_cast
    norm_num
  have e4 : goTrunc ((17179869184000000000 : Int) : ℚ) = -(2 ^ 63) := by
    have h0 : (0 : ℚ) ≤ ((17179869184000000000 : Int) : ℚ) := by norm_num
    have h1 : ((2 : Int) ^ 63 - 1) < 17179869184000000000 := by norm_num
    unfold goTrunc goTruncRaw
    rw [if_pos h0, Int.floor_intCast, if_pos (Or.inr h1)]
  have e5 : waitTime ⟨DefaultIsRetryable, 3, 1000000000, 30000000000⟩ 34 =
      ((17179869184000000000 : Int) : ℚ) := by
    unfold waitTime
    rw [e2, e4, if_neg (by norm_num)]
  have f1 : roundFloat64Int 5 = ((5 : Int) : ℚ) := by
    unfold roundFloat64Int
    rw [if_pos (by norm_num)]
  have f2 : waitTimeRaw ⟨DefaultIsRetryable, 3, 5, 30000000000⟩ 0 = ((5 : Int) : ℚ) := by
    unfold waitTimeRaw backoffFactor
    rw [show (⟨DefaultIsRetryable, 3, 5, 30000000000⟩ :
      RetryPolicy).minRetryDelay = 5 from rfl]
    rw [f1]
    norm_num
  have f3 : goTrunc ((5 : Int) : ℚ) = 5 := by
    have h0 : (0 : ℚ) ≤ ((5 : Int) : ℚ) := by norm_num
    have h1 : ¬((5 : Int) < -(2 ^ 63) ∨ (2 : Int) ^ 63 - 1 < 5) := by
      push_neg
      constructor <;> norm_num
    unfold goTrunc goTruncRaw
    rw [if_pos h0, Int.floor_intCast, if_neg h1]
  have f4 : waitTime ⟨DefaultIsRetryable, 3, 5, 30000000000⟩ 0 = ((5 : Int) : ℚ) := by
    unfold waitTime
    rw [f2, f3, if_neg (by norm_num)]
  have f5 : waitTime ⟨DefaultIsRetryable, 3, 5, 30000000000⟩ 0 +
      jitterAmount ⟨DefaultIsRetryable, 3, 5, 30000000000⟩ 0 0 = (9 / 2 : ℚ) := by
    unfold jitterAmount jitterFactor
    rw [f4]
    push_cast
    norm_num
  have f6 : waitTimeWithJitter ⟨DefaultIsRetryable, 3, 5, 30000000000⟩ 0 0 = 4 := by
    have hfl : ⌊(9 / 2 : ℚ)⌋ = 4 := by
      rw [Int.floor_eq_iff]
      constructor
      · norm_num
      · norm_num
    have h0 : (0 : ℚ) ≤ (9 / 2 : ℚ) := by norm_num
    have h1 : ¬((4 : Int) < -(2 ^ 63) ∨ (2 : Int) ^ 63 - 1 < 4) := by
      push_neg
      constructor <;> norm_num
    unfold waitTimeWithJitter goTrunc goTruncRaw
    rw [f5, if_pos h0, hfl, if_neg h1]
  refine ⟨?_, ?_, ?_, ?_⟩
  · rw [e5]
    norm_num
  · rw [e5]
    rw [min_eq_right (by norm_num : (30000000000 : Int) ≤ 1000000000 * 2 ^ 34)]
    norm_num
  · exact f6
  · rw [f6, f4]
    unfold jitterFactor
    push_cast
    norm_num

/-- Claim C4 (amended): for every attempt and every policy with nonnegative
MinRetryDelay ≤ MaxRetryDelay, whenever MinRetryDelay·2^attempt stays below
2^53 ns (about 104 days — the regime in which the float64 pipeline computes
exactly, met with vast margin by the default 1s/30s delays and sane retry
counts), the unjittered delay computed by Wait equals
min(MinRetryDelay·2^attempt, MaxRetryDelay); and the actual jittered delay
— the whole-nanosecond time.Duration handed to time.After — is at most
110% of the unjittered delay and strictly greater than 90% of it minus one
nanosecond of truncation. The random sample r of rand.Float64() lies in
[0, 1); outside the stated regime the original claim fails, as the
counterexample shows. -/
theorem wait_delay_bounds_in_range (p : RetryPolicy) (attempt : Nat) (r : ℚ)
    (hmin : 0 ≤ p.minRetryDelay) (hmm : p.minRetryDelay ≤ p.maxRetryDelay)
    (hrange : p.minRetryDelay * 2 ^ attempt < 2 ^ 53)
    (hr0 : 0 ≤ r) (hr1 : r ≤ 1) :
    waitTime p attempt = ((min (p.minRetryDelay * 2 ^ attempt) p.maxRetryDelay : Int) : ℚ) ∧
    ((waitTimeWithJitter p attempt r : Int) : ℚ) ≤
      waitTime p attempt + jitterFactor * waitTime p attempt ∧
    waitTime p attempt - jitterFactor * waitTime p attempt - 1 <
      ((waitTimeWithJitter p attempt r : Int) : ℚ) := by
  have hpow : (0 : Int) < 2 ^ attempt := pow_pos (by norm_num) attempt
  have hexact : p.minRetryDelay < 2 ^ 53 := by
    calc p.minRetryDelay = p.minRetryDelay * 1 := (mul_one _).symm
      _ ≤ p.minRetryDelay * 2 ^ attempt :=
        mul_le_mul_of_nonneg_left (by omega) hmin
      _ < 2 ^ 53 := hrange
  have hround : roundFloat64Int p.minRetryDelay = (p.minRetryDelay : ℚ) := by
    unfold roundFloat64Int
    have hna : p.minRetryDelay.natAbs < 2 ^ 53 := by omega
    rw [if_pos hna]
  have hint : waitTimeRaw p attempt = ((p.minRetryDelay * 2 ^ attempt : Int) : ℚ) := by
    unfold waitTimeRaw backoffFactor
    rw [hround]
    push_cast
    ring
  have hm2 : (0 : Int) ≤ p.minRetryDelay * 2 ^ attempt := mul_nonneg hmin hpow.le
  have htrraw : goTruncRaw (waitTimeRaw p attempt) = p.minRetryDelay * 2 ^ attempt := by
    rw [hint]
    unfold goTruncRaw
    rw [if_pos (by exact_mod_cast hm2)]
    exact Int.floor_intCast _
  have htr : goTrunc (waitTimeRaw p attempt) = p.minRetryDelay * 2 ^ attempt := by
    unfold goTrunc
    rw [htrraw, if_neg]
    push_neg
    constructor
    · linarith [show (-(2 : Int) ^ 63) ≤ 0 from by norm_num]
    · linarith [show ((2 : Int) ^ 53 ≤ 2 ^ 63 - 1) from by norm_num]
  have hfirst : waitTime p attempt =
      ((min (p.minRetryDelay * 2 ^ attempt) p.maxRetryDelay : Int) : ℚ) := by
    unfold waitTime
    rw [htr]
    split
    next h => rw [min_eq_right h.le]
    next h =>
      rw [min_eq_left (not_lt.mp h)]
      exact hint
  have hw0 : 0 ≤ waitTime p attempt := by
    rw [hfirst]
    have : (0 : Int) ≤ min (p.minRetryDelay * 2 ^ attempt) p.maxRetryDelay :=
      le_min hm2 (le_trans hmin hmm)
    exact_mod_cast this
  have hwlt : waitTime p attempt < (2 : ℚ) ^ 53 := by
    have h1 : waitTime p attempt ≤ ((p.minRetryDelay * 2 ^ attempt : Int) : ℚ) := by
      rw [hfirst]
      exact_mod_cast min_le_left _ _
    have h2 : ((p.minRetryDelay * 2 ^ attempt : Int) : ℚ) < (2 : ℚ) ^ 53 := by
      exact_mod_cast hrange
    linarith
  have hjb : |jitterAmount p attempt r| ≤ jitterFactor * waitTime p attempt := by
    rw [abs_le]
    constructor
    · simp only [jitterAmount, jitterFactor]
      nlinarith [mul_nonneg hw0 hr0]
    · simp only [jitterAmount, jitterFactor]
      nlinarith [mul_nonneg hw0 (by linarith : (0 : ℚ) ≤ 1 - r)]
  have hjlo := (abs_le.mp hjb).1
  have hjhi := (abs_le.mp hjb).2
  set x := waitTime p attempt + jitterAmount p attempt r with hxdef
  have hx0 : 0 ≤ x := by
    simp only [jitterFactor] at hjlo
    rw [hxdef]
    linarith
  have hxlt : x < (2 : ℚ) ^ 63 - 1 := by
    simp only [jitterFactor] at hjhi
    rw [hxdef]
    nlinarith [hwlt, show ((11 : ℚ) / 10) * 2 ^ 53 < 2 ^ 63 - 1 from by norm_num]
  have hfx : goTrunc x = ⌊x⌋ := by
    unfold goTrunc goTruncRaw
    rw [if_pos hx0, if_neg]
    push_neg
    have hf0 : (0 : Int) ≤ ⌊x⌋ := Int.floor_nonneg.mpr hx0
    constructor
    · linarith [show (-(2 : Int) ^ 63) ≤ 0 from by norm_num]
    · have hxlt2 : x < (((2 : Int) ^ 63 : Int) : ℚ) := by push_cast; linarith
      have := Int.floor_lt.mpr hxlt2
      omega
  have hwwj : waitTimeWithJitter p attempt r = ⌊x⌋ := hfx
  refine ⟨hfirst, ?_, ?_⟩
  · rw [hwwj]
    have h1 : ((⌊x⌋ : Int) : ℚ) ≤ x := Int.floor_le x
    rw [hxdef] at h1
    linarith
  · rw [hwwj]
    have h1 : x - 1 < ((⌊x⌋ : Int) : ℚ) := Int.sub_one_lt_floor x
    rw [hxdef] at h1
    linarith

/-- Witness for Claim C4 (amended) at a concrete input: the default delays
(MinRetryDelay = 1s, MaxRetryDelay = 30s in nanoseconds), attempt 2, and
the random sample 1/2. -/
theorem wait_delay_bounds_in_range_witness :
    waitTime ⟨DefaultIsRetryable, 3, 1000000000, 30000000000⟩ 2 =
      ((min ((1000000000 : Int) * 2 ^ 2) 30000000000 : Int) : ℚ) ∧
    ((waitTimeWithJitter ⟨DefaultIsRetryable, 3, 1000000000, 30000000000⟩ 2 (1 / 2) : Int) : ℚ) ≤
      waitTime ⟨DefaultIsRetryable, 3, 1000000000, 30000000000⟩ 2 +
        jitterFactor * waitTime ⟨DefaultIsRetryable, 3, 1000000000, 30000000000⟩ 2 ∧
    waitTime ⟨DefaultIsRetryable, 3, 1000000000, 30000000000⟩ 2 -
        jitterFactor * waitTime ⟨DefaultIsRetryable, 3, 1000000000, 30000000000⟩ 2 - 1 <
      ((waitTimeWithJitter ⟨DefaultIsRetryable, 3, 1000000000, 30000000000⟩ 2 (1 / 2) : Int) : ℚ) :=
  wait_delay_bounds_in_range ⟨DefaultIsRetryable, 3, 1000000000, 30000000000⟩ 2 (1 / 2)
    (by decide) (by decide) (by decide) (by norm_num) (by norm_num)

/-- Model of a Go net/url URL of the restricted shape endpoint.Parse builds:
a scheme, a host (possibly carrying a :port), and a path, with no userinfo,
query, fragment or opaque part. -/
structure GoURL where
  scheme : String
  host : String
  path : String
  deriving DecidableEq

/-- Modelled from the Go standard library: url.URL.String renders a URL with
a host and no userinfo, query, fragment or opaque part as
scheme://host followed by the path. -/
def urlToString (u : GoURL) : String :=
  u.scheme ++ "://" ++ u.host ++ u.path

/-- Modelled from the Go standard library: url.Parse restricted to absolute
URLs of the shape scheme://host followed by an optional /path, with no
userinfo, query or fragment — the only shape endpoint.Parse builds. The
scheme is everything before the first colon and must be nonempty; the host
extends to the first slash; the path is the remainder including its leading
slash. -/
def urlParse (s : String) : Option GoURL :=
  match s.toList.span (fun c => c != ':') with
  | (sch, ':' :: '/' :: '/' :: rest) =>
    if sch.isEmpty then none
    else
      match rest.span (fun c => c != '/') with
      | (host, path) => some ⟨String.mk sch, String.mk host, String.mk path⟩
  | _ => none

/-- Errors returned by endpoint.Parse: ErrMissingFragment, ErrInvalidScheme,
or a parse failure propagated from url.Parse. -/
inductive EndpointErr where
  | missingFragment
  | invalidScheme
  | parseFailure
  deriving DecidableEq

/-- Embedding of endpoint.Parse: validates the scheme and host, defaults an empty path to
"/", concatenates scheme://host[:port]path, and parses the result. -/
def endpointParse (scheme host port path : String) : Except EndpointErr GoURL :=
  if scheme = "" ∨ host = "" then .error .missingFragment
  else if scheme ≠ "https" ∧ scheme ≠ "http" then .error .invalidScheme
  else
    let path := if path = "" then "/" else path
    let built := scheme ++ "://" ++ host ++ (if port ≠ "" then ":" ++ port else "") ++ path
    match urlParse built with
    | some u => .ok u
    | none => .error .parseFailure

/-- Claim C9: constructing an Endpoint from scheme "https", host
"example.com", port "8080" and an empty path succeeds, defaults the path to
"/", and yields a URL whose string form is exactly
"https://example.com:8080/". -/
theorem endpoint_parse_round_trip :
    endpointParse "https" "example.com" "8080" "" =
      .ok ⟨"https", "example.com:8080", "/"⟩ ∧
    urlToString ⟨"https", "example.com:8080", "/"⟩ = "https://example.com:8080/" := by
  constructor
  · decide
  · decide

/-- Embedding of cloudcraft.Response: the normalized result returned by
Client.do. -/
structure Response where
  header : List (String × List String)
  body : Bytes
  status : Nat
  deriving DecidableEq

/-- Outcome of one call to the underlying httpClient.Do: per the
http.Client.Do contract, either an error with a nil response (a
transport-level failure) or a response with a nil error. -/
inductive SendOutcome where
  | failure (e : Err)
  | response (r : HTTPResponse)
  deriving DecidableEq

/-- Exit state of the retry loop of Client.do: either an early return caused
by a non-nil error from retryPolicy.Wait, or the loop left normally (by
break, or by the loop guard failing) with the current values of the
attempt counter and of the resp and err variables. consumed records whether
the carried response's body was already drained (and closed) inside the
loop; sends records the request body handed to each network send. -/
inductive LoopResult where
  | waitAbort (e : Err) (sends : List (Option Bytes))
  | exit (attempt : Nat) (resp : Option HTTPResponse) (err : Option Err)
      (consumed : Bool) (sends : List (Option Bytes))
  deriving DecidableEq

/-- The retry loop of Client.do
(for attempt = 0; attempt <= c.retryPolicy.MaxRetries; attempt++ { ... }).
remaining is the number of loop-guard checks still to succeed, i.e.
(MaxRetries + 1).toNat at the initial call; send i models c.httpClient.Do on
attempt i; wait i models retryPolicy.Wait(req.Context(), i) — none when the
jittered delay elapsed, some e when the context was canceled with error e.
Each iteration first rewinds req.Body to the buffered bytes (recorded in
sends), then sends; on an error or a non-retryable outcome it breaks; a
retryable response is drained — the drain result being assigned to err —
and the loop waits before the next attempt. -/
def doLoop (p : RetryPolicy) (bodyBytes : Option Bytes) (send : Nat → SendOutcome)
    (wait : Nat → Option Err) :
    Nat → Nat → Option HTTPResponse → Option Err → Bool → List (Option Bytes) → LoopResult
  | 0, attempt, resp, err, consumed, sends => .exit attempt resp err consumed sends
  | remaining + 1, attempt, _, _, _, sends =>
    let sends := sends ++ [bodyBytes]
    match send attempt with
    | .failure e => .exit attempt none (some e) false sends
    | .response r =>
      if p.isRetryable (some r) none then
        match wait attempt with
        | some e => .waitAbort e sends
        | none => doLoop p bodyBytes send wait remaining (attempt + 1) (some r)
            (DrainResponseBody r) true sends
      else .exit attempt (some r) none false sends

/-- Observable outcome of Client.do: the returned (\*Response, error) pair —
exactly one of the two is set, which the Except type enforces — together
with the record of the request bodies handed to each network send. -/
structure DoOutcome where
  result : Except Err Response
  sends : List (Option Bytes)
  deriving DecidableEq

/-- The code of Client.do after the retry loop. ctxDone and ctxErr model the
req.Context() state observed by the select after the loop. A nil response
with the attempt counter at or past MaxRetries yields ErrMaxRetriesExceeded;
a non-nil err yields the context's error when the context is done and err
itself otherwise; then the response body is drained as a deferred cleanup
whose error cannot affect the returned values; a status above 204 (
http.StatusNoContent) yields ErrRequestFailed with that status; otherwise
the body is copied into an owned buffer and the normalized Response is
returned. A body already drained and closed inside the loop fails this copy
with net/http's read-on-closed-body error. -/
def doFinish (p : RetryPolicy) (ctxDone : Bool) (ctxErr : Err) : LoopResult → DoOutcome
  | .waitAbort e sends => ⟨.error e, sends⟩
  | .exit attempt resp err consumed sends =>
    if resp = none ∧ p.maxRetries ≤ (attempt : Int) then
      ⟨.error (.maxRetriesExceeded attempt), sends⟩
    else
      match resp, err with
      | _, some e => ⟨.error (if ctxDone then ctxErr else e), sends⟩
      | none, none => ⟨.error .nilResponsePanic, sends⟩
      | some r, none =>
        if 204 < r.statusCode then ⟨.error (.requestFailed r.statusCode), sends⟩
        else
          match (if consumed then Except.error Err.readOnClosedBody else r.bodyRead) with
          | .error e => ⟨.error e, sends⟩
          | .ok bs => ⟨.ok ⟨r.header, bs, r.statusCode⟩, sends⟩

/-- Embedding of Client.do. reqBody models req.Body: none when the request has no body,
and otherwise the outcome of reading the original body stream to exhaustion
(the up-front buffering step); a read failure there is returned before any
attempt is made. The Go fmt.Errorf("%w", err) wrappers are transparent and
modelled as the identity. -/
def clientDo (p : RetryPolicy) (reqBody : Option (Except Err Bytes))
    (send : Nat → SendOutcome) (wait : Nat → Option Err)
    (ctxDone : Bool) (ctxErr : Err) : DoOutcome :=
  match reqBody with
  | some (.error e) => ⟨.error e, []⟩
  | some (.ok bs) =>
    doFinish p ctxDone ctxErr
      (doLoop p (some bs) send wait (p.maxRetries + 1).toNat 0 none none false [])
  | none =>
    doFinish p ctxDone ctxErr
      (doLoop p none send wait (p.maxRetries + 1).toNat 0 none none false [])

/-- Helper: clientDo on a request body that buffers successfully (or on no
body) runs the loop and the post-loop classification. -/
theorem clientDo_map_ok (p : RetryPolicy) (bodyBytes : Option Bytes)
    (send : Nat → SendOutcome) (wait : Nat → Option Err) (ctxDone : Bool) (ctxErr : Err) :
    clientDo p (bodyBytes.map Except.ok) send wait ctxDone ctxErr =
      doFinish p ctxDone ctxErr
        (doLoop p bodyBytes send wait (p.maxRetries + 1).toNat 0 none none false []) := by
  cases bodyBytes <;> rfl

/-- Helper: k+1 consecutive attempts that each produce a retryable response
followed by a successful wait advance the loop k+1 steps, carrying the last
response (with its drain result in err and its body consumed) and appending
k+1 sends of the buffered body. -/
theorem doLoop_retryable_steps (p : RetryPolicy) (b : Option Bytes)
    (send : Nat → SendOutcome) (wait : Nat → Option Err) :
    ∀ (k rem a : Nat) (resp : Option HTTPResponse) (err : Option Err) (c : Bool)
      (sends : List (Option Bytes)) (rk : HTTPResponse),
      (∀ i, i < k + 1 → ∃ r, send (a + i) = .response r ∧
        p.isRetryable (some r) none = true ∧ wait (a + i) = none) →
      send (a + k) = .response rk →
      doLoop p b send wait (k + 1 + rem) a resp err c sends =
        doLoop p b send wait rem (a + k + 1) (some rk) (DrainResponseBody rk) true
          (sends ++ List.replicate (k + 1) b) := by
  intro k
  induction k with
  | zero =>
    intro rem a resp err c sends rk hall hk
    obtain ⟨r0, hs0, hret0, hw0⟩ := hall 0 (by omega)
    rw [Nat.add_zero] at hk hs0 hw0
    rw [hk] at hs0
    injection hs0 with hr0
    rw [← hr0] at hret0
    have hfuel : 0 + 1 + rem = rem + 1 := by omega
    rw [hfuel]
    simp [doLoop, hk, hret0, hw0]
  | succ k ih =>
    intro rem a resp err c sends rk hall hk
    obtain ⟨r0, hs0, hret0, hw0⟩ := hall 0 (by omega)
    rw [Nat.add_zero] at hs0 hw0
    have hfuel : k + 1 + 1 + rem = (k + 1 + rem) + 1 := by omega
    rw [hfuel]
    simp only [doLoop, hs0, hret0, hw0, eq_self_iff_true, if_true]
    have hall' : ∀ i, i < k + 1 → ∃ r, send (a + 1 + i) = .response r ∧
        p.isRetryable (some r) none = true ∧ wait (a + 1 + i) = none := by
      intro i hi
      have := hall (i + 1) (by omega)
      rwa [show a + (i + 1) = a + 1 + i from by omega] at this
    have hk' : send (a + 1 + k) = .response rk := by
      rwa [show a + 1 + k = a + (k + 1) from by omega]
    rw [ih rem (a + 1) (some r0) (DrainResponseBody r0) true (sends ++ [b]) rk hall' hk']
    rw [show a + 1 + k + 1 = a + (k + 1) + 1 from by omega]
    rw [List.append_assoc]
    rw [show ([b] ++ List.replicate (k + 1) b : List (Option Bytes)) =
      List.replicate (k + 1 + 1) b from by simp [List.replicate_succ]]

/-- Claim C1 (refuting computation at the failing input): with MaxRetries
= 2, the default retryability predicate, and a transport that fails every
send at transport level (an error, no response), Client.do performs exactly
one send and returns that transport error itself — it does not retry, does
not wait, and does not produce the retries-exhausted error, because the loop
breaks on any non-nil send error before consulting IsRetryable, although
DefaultIsRetryable classifies every non-nil error as retryable and the
ErrMaxRetriesExceeded branch exists for exactly the all-transport-failures
case. -/
theorem do_transport_error_not_retried :
    clientDo ⟨DefaultIsRetryable, 2, 1000000000, 30000000000⟩ none
      (fun _ => .failure (.external 7)) (fun _ => none) false .ctxCanceled =
      ⟨.error (.external 7), [none]⟩ := by
  decide

/-- Claim C2 (counterexample): with MaxRetries = 1 and a server that answers
every attempt with status 202 — a member of the retryable set — Client.do
does send exactly R+1 = 2 requests, but then returns the net/http
read-on-closed-body error rather than a non-success-status error carrying
202: the final 202 response was drained and closed before the loop exited,
and 202 ≤ 204 routes it through the success path, whose body copy fails. -/
theorem do_exhausted_202_counterexample :
    clientDo ⟨DefaultIsRetryable, 1, 1000000000, 30000000000⟩ none
      (fun _ => .response ⟨202, [("Content-Type", ["application/json"])], 2, .ok [1, 2], none⟩)
      (fun _ => none) false .ctxCanceled =
      ⟨.error .readOnClosedBody, [none, none]⟩ := by
  decide

/-- Claim C2 (amended): for every MaxRetries = R and every server that
answers every attempt with a status in the retryable set (and whose final
response drains cleanly), the executor sends exactly R+1 requests; it then
returns the non-success-status error carrying the final response's status
when that status exceeds 204 (408, 429, 502, 503, 504), while a final status
of 202 is routed through the success path and fails the body copy with the
read-on-closed-body error instead. -/
theorem do_exhausts_retryable_statuses (R : Nat) (p : RetryPolicy)
    (hpp : p.isRetryable = DefaultIsRetryable) (hpR : p.maxRetries = (R : Int))
    (bodyBytes : Option Bytes) (send : Nat → SendOutcome) (wait : Nat → Option Err)
    (hsend : ∀ i, i < R + 1 →
      ∃ r, send i = .response r ∧ DefaultIsRetryable (some r) none = true)
    (hwait : ∀ i, wait i = none)
    (rFin : HTTPResponse) (hfin : send R = .response rFin)
    (hdrain : DrainResponseBody rFin = none)
    (ctxDone : Bool) (ctxErr : Err) :
    clientDo p (bodyBytes.map Except.ok) send wait ctxDone ctxErr =
      ⟨if 204 < rFin.statusCode then .error (.requestFailed rFin.statusCode)
          else .error .readOnClosedBody,
        List.replicate (R + 1) bodyBytes⟩ := by
  rw [clientDo_map_ok]
  have hfuel : (p.maxRetries + 1).toNat = R + 1 := by rw [hpR]; omega
  rw [hfuel]
  have hall : ∀ i, i < R + 1 → ∃ r, send (0 + i) = .response r ∧
      p.isRetryable (some r) none = true ∧ wait (0 + i) = none := by
    intro i hi
    obtain ⟨r, hr, hret⟩ := hsend i hi
    exact ⟨r, by simpa using hr, by rw [hpp]; exact hret, by simpa using hwait (0 + i)⟩
  have hsteps := doLoop_retryable_steps p bodyBytes send wait R 0 0 none none false [] rFin
    hall (by simpa using hfin)
  simp only [Nat.add_zero, Nat.zero_add] at hsteps
  rw [hsteps]
  simp only [doLoop, hdrain, List.nil_append, doFinish]
  by_cases hst : 204 < rFin.statusCode <;> simp [hst]

/-- Witness for Claim C2 (amended) at a concrete input: MaxRetries = 1, no
request body, every attempt answered with status 503 and an empty body; the
executor sends twice and surfaces ErrRequestFailed with 503. -/
theorem do_exhausts_retryable_statuses_witness :
    clientDo ⟨DefaultIsRetryable, 1, 1000000000, 30000000000⟩ none
      (fun _ => .response ⟨503, [], 0, .ok [], none⟩) (fun _ => none) false .ctxCanceled =
      ⟨.error (.requestFailed 503), [none, none]⟩ :=
  do_exhausts_retryable_statuses 1 ⟨DefaultIsRetryable, 1, 1000000000, 30000000000⟩
    rfl rfl none (fun _ => .response ⟨503, [], 0, .ok [], none⟩) (fun _ => none)
    (fun _ _ => ⟨⟨503, [], 0, .ok [], none⟩, rfl, rfl⟩) (fun _ => rfl)
    ⟨503, [], 0, .ok [], none⟩ rfl rfl false .ctxCanceled

/-- Claim C6: for every request carrying a non-empty body and every server
that fails the first N−1 attempts with retryable statuses and then succeeds
on attempt N (with N ≤ MaxRetries + 1 and no cancellation), the executor
hands the identical fully-buffered body bytes to all N network sends —
exactly N sends are recorded — and returns the successful response. -/
theorem do_replays_buffered_body (R N : Nat) (hN : 0 < N) (hNR : N ≤ R + 1)
    (p : RetryPolicy) (hpp : p.isRetryable = DefaultIsRetryable)
    (hpR : p.maxRetries = (R : Int))
    (B : Bytes) (_hB : B ≠ [])
    (send : Nat → SendOutcome) (wait : Nat → Option Err)
    (hfail : ∀ i, i + 1 < N →
      ∃ r, send i = .response r ∧ DefaultIsRetryable (some r) none = true)
    (hwait : ∀ i, wait i = none)
    (rOK : HTTPResponse) (hsend : send (N - 1) = .response rOK)
    (hstat : rOK.statusCode ≤ 204)
    (hnr : DefaultIsRetryable (some rOK) none = false)
    (BR : Bytes) (hbody : rOK.bodyRead = .ok BR)
    (ctxDone : Bool) (ctxErr : Err) :
    clientDo p (some (.ok B)) send wait ctxDone ctxErr =
      ⟨.ok ⟨rOK.header, BR, rOK.statusCode⟩, List.replicate N (some B)⟩ := by
  have hmap : (some (Except.ok B) : Option (Except Err Bytes)) =
      (some B : Option Bytes).map Except.ok := rfl
  rw [hmap, clientDo_map_ok]
  have hfuel : (p.maxRetries + 1).toNat = R + 1 := by rw [hpR]; omega
  rw [hfuel]
  cases N with
  | zero => omega
  | succ M =>
    cases M with
    | zero =>
      have hfe : R + 1 = R + 1 := rfl
      obtain ⟨rem, hrem⟩ : ∃ rem, R + 1 = rem + 1 := ⟨R, rfl⟩
      rw [hrem]
      simp only [doLoop]
      simp only [show (0 : Nat) + 1 - 1 = 0 from rfl] at hsend
      rw [hpp, hsend]
      have hgt : ¬ 204 < rOK.statusCode := by omega
      simp [hnr, hgt, hbody, doFinish, List.replicate]
    | succ k =>
      have hall : ∀ i, i < k + 1 → ∃ r, send (0 + i) = .response r ∧
          p.isRetryable (some r) none = true ∧ wait (0 + i) = none := by
        intro i hi
        obtain ⟨r, hr, hret⟩ := hfail i (by omega)
        exact ⟨r, by simpa using hr, by rw [hpp]; exact hret, by simpa using hwait (0 + i)⟩
      obtain ⟨rk, hrk, hretk⟩ := hfail k (by omega)
      have hsteps := doLoop_retryable_steps p (some B) send wait k (R - k) 0 none none false []
        rk hall (by simpa using hrk)
      have hfe : R + 1 = k + 1 + (R - k) := by omega
      rw [hfe, hsteps]
      simp only [Nat.zero_add, List.nil_append]
      have hre : R - k = (R - k - 1) + 1 := by omega
      rw [hre]
      simp only [doLoop]
      have hsN : send (k + 1) = .response rOK := by
        rwa [show k + 1 = k + 1 + 1 - 1 from rfl] at hsend
      rw [hpp, hsN]
      have hgt : ¬ 204 < rOK.statusCode := by omega
      simp [hnr, hgt, hbody, doFinish, List.replicate_succ', List.append_assoc]

/-- Witness for Claim C6 at a concrete input: MaxRetries = 3, a body of one
byte, two attempts answered 502 and the third answered 200 with body bytes
[9, 9]; all three sends carry the buffered body and the 200 response is
returned. -/
theorem do_replays_buffered_body_witness :
    clientDo ⟨DefaultIsRetryable, 3, 1000000000, 30000000000⟩ (some (.ok [1]))
      (fun i => if i < 2 then .response ⟨502, [], 0, .ok [], none⟩
        else .response ⟨200, [("c", ["d"])], 2, .ok [9, 9], none⟩)
      (fun _ => none) false .ctxCanceled =
      ⟨.ok ⟨[("c", ["d"])], [9, 9], 200⟩, List.replicate 3 (some [1])⟩ :=
  do_replays_buffered_body 3 3 (by decide) (by decide)
    ⟨DefaultIsRetryable, 3, 1000000000, 30000000000⟩ rfl rfl [1] (by decide)
    (fun i => if i < 2 then .response ⟨502, [], 0, .ok [], none⟩
      else .response ⟨200, [("c", ["d"])], 2, .ok [9, 9], none⟩)
    (fun _ => none)
    (fun i hi =>
      match i, hi with
      | 0, _ => ⟨⟨502, [], 0, .ok [], none⟩, rfl, rfl⟩
      | 1, _ => ⟨⟨502, [], 0, .ok [], none⟩, rfl, rfl⟩)
    (fun _ => rfl)
    ⟨200, [("c", ["d"])], 2, .ok [9, 9], none⟩ rfl (by decide) rfl
    [9, 9] rfl false .ctxCanceled

/-- Claim C7: a first-attempt response whose status is neither a success
(≤ 204) nor in the retryable set is surfaced as ErrRequestFailed carrying
that status after exactly one send, with zero retries. -/
theorem do_terminal_status_no_retry (R : Nat) (p : RetryPolicy)
    (hpp : p.isRetryable = DefaultIsRetryable) (hpR : p.maxRetries = (R : Int))
    (bodyBytes : Option Bytes) (send : Nat → SendOutcome) (wait : Nat → Option Err)
    (r0 : HTTPResponse) (hs0 : send 0 = .response r0)
    (hgt : 204 < r0.statusCode)
    (hnr : DefaultIsRetryable (some r0) none = false)
    (ctxDone : Bool) (ctxErr : Err) :
    clientDo p (bodyBytes.map Except.ok) send wait ctxDone ctxErr =
      ⟨.error (.requestFailed r0.statusCode), [bodyBytes]⟩ := by
  rw [clientDo_map_ok]
  have hfuel : (p.maxRetries + 1).toNat = R + 1 := by rw [hpR]; omega
  rw [hfuel]
  simp only [doLoop, hs0, hpp, hnr, Bool.false_eq_true, if_false, List.nil_append, doFinish]
  simp [hgt]

/-- Witness for Claim C7 at a concrete input: a server answering 418 (a
teapot: outside both the success range and the retryable set) causes
ErrRequestFailed with status 418 after a single send. -/
theorem do_terminal_status_no_retry_witness :
    clientDo ⟨DefaultIsRetryable, 3, 1000000000, 30000000000⟩ none
      (fun _ => .response ⟨418, [], 0, .ok [], none⟩) (fun _ => none) false .ctxCanceled =
      ⟨.error (.requestFailed 418), [none]⟩ :=
  do_terminal_status_no_retry 3 ⟨DefaultIsRetryable, 3, 1000000000, 30000000000⟩
    rfl rfl none (fun _ => .response ⟨418, [], 0, .ok [], none⟩) (fun _ => none)
    ⟨418, [], 0, .ok [], none⟩ rfl (by decide) (by decide) false .ctxCanceled

/-- Claim C8: a first-attempt response with status 201 whose body reads as
bytes B is returned as a Response with status 201, body exactly B, and the
response's headers, paired with no error — the Except result type enforces
that a Response and an error are never returned together. -/
theorem do_success_201_response (R : Nat) (p : RetryPolicy)
    (hpp : p.isRetryable = DefaultIsRetryable) (hpR : p.maxRetries = (R : Int))
    (bodyBytes : Option Bytes) (send : Nat → SendOutcome) (wait : Nat → Option Err)
    (r0 : HTTPResponse) (hs0 : send 0 = .response r0)
    (hstat : r0.statusCode = 201)
    (B : Bytes) (hbody : r0.bodyRead = .ok B)
    (ctxDone : Bool) (ctxErr : Err) :
    clientDo p (bodyBytes.map Except.ok) send wait ctxDone ctxErr =
      ⟨.ok ⟨r0.header, B, 201⟩, [bodyBytes]⟩ := by
  rw [clientDo_map_ok]
  have hfuel : (p.maxRetries + 1).toNat = R + 1 := by rw [hpR]; omega
  rw [hfuel]
  have hnr : DefaultIsRetryable (some r0) none = false := by
    simp [DefaultIsRetryable, hstat]
  simp only [doLoop, hs0, hpp, hnr, Bool.false_eq_true, if_false, List.nil_append, doFinish]
  have hgt : ¬ 204 < r0.statusCode := by omega
  simp [hgt, hbody, hstat]

/-- Witness for Claim C8 at a concrete input: a 201 response with body
[4, 2] and one header is returned as Response with status 201 and body
[4, 2]. -/
theorem do_success_201_response_witness :
    clientDo ⟨DefaultIsRetryable, 3, 1000000000, 30000000000⟩ none
      (fun _ => .response ⟨201, [("x", ["y"])], 2, .ok [4, 2], none⟩)
      (fun _ => none) false .ctxCanceled =
      ⟨.ok ⟨[("x", ["y"])], [4, 2], 201⟩, [none]⟩ :=
  do_success_201_response 3 ⟨DefaultIsRetryable, 3, 1000000000, 30000000000⟩
    rfl rfl none (fun _ => .response ⟨201, [("x", ["y"])], 2, .ok [4, 2], none⟩)
    (fun _ => none) ⟨201, [("x", ["y"])], 2, .ok [4, 2], none⟩ rfl rfl
    [4, 2] rfl false .ctxCanceled

/-- Claim C10: when buffering the request body up front fails with a read
error, Client.do returns that error and performs zero network sends. -/
theorem do_body_buffer_error (p : RetryPolicy) (send : Nat → SendOutcome)
    (wait : Nat → Option Err) (ctxDone : Bool) (ctxErr : Err) (e : Err) :
    clientDo p (some (.error e)) send wait ctxDone ctxErr = ⟨.error e, []⟩ :=
  rfl

end Cloudcraft
